import Mathlib

/-!
Verification of the open-haven directory-and-review application.

The development shallowly embeds the client-side logic of the repository:
the location filter and county normalisation of the Programs page, the
location_ratings aggregate view, the ReviewForm submission handler, the
two DetailedReviewForm draft variants, the favorite toggle and the
notes/visit tracking of the LocationDetail page.  Strings are modelled as
Lean strings; JavaScript string primitives (toLowerCase, trim, includes
and the regex used by normalizeCounty) are modelled over the ASCII range
that the application data inhabits.
-/

namespace OpenHaven

/-! ### Character and string primitives -/

/-- ASCII lower-casing of one character, modelling the effect of the
JavaScript toLowerCase call on the ASCII range. -/
def lowerChar (c : Char) : Char :=
  if 65 ≤ c.toNat ∧ c.toNat ≤ 90 then Char.ofNat (c.toNat + 32) else c

/-- Whitespace class of the JavaScript regular-expression escape and of
the trim primitive, restricted to its ASCII members. -/
def jsWhitespace (c : Char) : Bool :=
  decide (c.toNat = 32 ∨ c.toNat = 9 ∨ c.toNat = 10 ∨ c.toNat = 13 ∨
    c.toNat = 11 ∨ c.toNat = 12)

/-- Lower-casing of a character list. -/
def lowerList (l : List Char) : List Char := l.map lowerChar

/-- Both-ends whitespace removal on a character list, modelling the
JavaScript trim call. -/
def jsTrimList (l : List Char) : List Char :=
  (l.dropWhile jsWhitespace).rdropWhile jsWhitespace

/-- Model of the JavaScript trim call on strings. -/
def jsTrimString (s : String) : String := String.mk (jsTrimList s.data)

theorem toNat_ofNat_valid (n : Nat) (h : n.isValidChar) :
    (Char.ofNat n).toNat = n := by
  simp [Char.ofNat, h, Char.ofNatAux, Char.toNat, UInt32.toNat]

theorem lowerChar_toNat_of_upper (c : Char) (h : 65 ≤ c.toNat ∧ c.toNat ≤ 90) :
    (lowerChar c).toNat = c.toNat + 32 := by
  have hv : (c.toNat + 32).isValidChar := Or.inl (by omega)
  simp [lowerChar, h, toNat_ofNat_valid _ hv]

theorem lowerChar_eq_self (c : Char) (h : ¬(65 ≤ c.toNat ∧ c.toNat ≤ 90)) :
    lowerChar c = c := by
  simp [lowerChar, h]

theorem lowerChar_idem (c : Char) : lowerChar (lowerChar c) = lowerChar c := by
  by_cases h : 65 ≤ c.toNat ∧ c.toNat ≤ 90
  · have ht := lowerChar_toNat_of_upper c h
    exact lowerChar_eq_self _ (by omega)
  · rw [lowerChar_eq_self c h]
    exact lowerChar_eq_self c h

theorem jsWhitespace_lowerChar (c : Char) :
    jsWhitespace (lowerChar c) = jsWhitespace c := by
  by_cases h : 65 ≤ c.toNat ∧ c.toNat ≤ 90
  · have ht := lowerChar_toNat_of_upper c h
    have h1 : jsWhitespace (lowerChar c) = false := by
      simp only [jsWhitespace, ht, decide_eq_false_iff_not]
      omega
    have h2 : jsWhitespace c = false := by
      simp only [jsWhitespace, decide_eq_false_iff_not]
      omega
    rw [h1, h2]
  · rw [lowerChar_eq_self c h]

theorem lowerList_idem (l : List Char) : lowerList (lowerList l) = lowerList l := by
  simp only [lowerList, List.map_map]
  exact List.map_congr_left fun c _ => lowerChar_idem c

theorem jsWhitespace_comp_lowerChar : (jsWhitespace ∘ lowerChar) = jsWhitespace :=
  funext jsWhitespace_lowerChar

theorem dropWhile_lowerList (l : List Char) :
    (lowerList l).dropWhile jsWhitespace = lowerList (l.dropWhile jsWhitespace) := by
  rw [lowerList, List.dropWhile_map, jsWhitespace_comp_lowerChar, lowerList]

theorem rdropWhile_lowerList (l : List Char) :
    (lowerList l).rdropWhile jsWhitespace = lowerList (l.rdropWhile jsWhitespace) := by
  rw [List.rdropWhile, List.rdropWhile, lowerList, lowerList, ← List.map_reverse,
    List.dropWhile_map, jsWhitespace_comp_lowerChar, ← List.map_reverse]

theorem dropWhile_eq_self_of_prefix {α : Type} (p : α → Bool) {w u : List α}
    (hw : w <+: u) (hu : u.dropWhile p = u) : w.dropWhile p = w := by
  cases w with
  | nil => rfl
  | cons a t =>
    obtain ⟨rest, hrest⟩ := hw
    subst hrest
    by_cases hpa : p a = true
    · rw [List.cons_append, List.dropWhile_cons_of_pos hpa] at hu
      have hle : (List.dropWhile p (t ++ rest)).length ≤ (t ++ rest).length :=
        List.IsSuffix.length_le (List.dropWhile_suffix p)
      have hlen := congrArg List.length hu
      simp at hlen hle
      omega
    · rw [List.dropWhile_cons_of_neg hpa]

/-! ### County normalisation (Programs page, normalizeCounty)

The source is the arrow function
(c) => (c or "").replace(regex matching whitespace then county at the end,
case-insensitively, with the empty string).trim().toLowerCase().
The regex removes the trailing word county together with the maximal run
of whitespace immediately before it, provided at least one whitespace
character separates it from the rest; the removal happens before the trim
and the lower-casing. -/

/-- Reversed character list of the word county, used to test the suffix. -/
def countyRev : List Char := ['y', 't', 'n', 'u', 'o', 'c']

/-- Test of whether the regex of normalizeCounty matches: the string ends,
case-insensitively, with the word county preceded by at least one
whitespace character. -/
def canStripCounty (l : List Char) : Bool :=
  ((l.reverse.take 6).map lowerChar == countyRev) &&
    (match l.reverse.drop 6 with
     | [] => false
     | c :: _ => jsWhitespace c)

/-- Effect of the replace call of normalizeCounty: when the regex matches,
the trailing word county and the whole whitespace run before it are
removed; otherwise the string is unchanged. -/
def stripCounty (l : List Char) : List Char :=
  if canStripCounty l then ((l.reverse.drop 6).dropWhile jsWhitespace).reverse
  else l

/-- Model of normalizeCounty from the Programs page: strip the county
suffix, then trim, then lower-case. -/
def normalizeCounty (s : String) : String :=
  String.mk (lowerList (jsTrimList (stripCounty s.data)))

theorem stripCounty_eq_of_not_can {l : List Char} (h : canStripCounty l = false) :
    stripCounty l = l := by
  simp [stripCounty, h]

/-- Claim C2 asserts idempotence of normalizeCounty for every string.  The
code strips the county suffix before trimming, so a trailing space hides
the suffix from the first pass and a second pass strips it: the string
erie-county-space is a counterexample. -/
theorem C2_counterexample :
    normalizeCounty (normalizeCounty "erie county ") ≠
      normalizeCounty "erie county " := by
  decide

/-- Claim C2 (amended): normalizeCounty("Erie County") equals
normalizeCounty("erie"), and normalize(normalize(x)) equals normalize(x)
for every x whose once-normalised form does not itself still end in
whitespace followed by the word county (the regex test canStripCounty). -/
theorem C2_normalizeCounty_conditional_idem (x : String)
    (h : canStripCounty (normalizeCounty x).data = false) :
    normalizeCounty (normalizeCounty x) = normalizeCounty x ∧
    normalizeCounty "Erie County" = normalizeCounty "erie" := by
  constructor
  · have hstrip := stripCounty_eq_of_not_can h
    have hw : (normalizeCounty x).data =
        lowerList (((stripCounty x.data).dropWhile jsWhitespace).rdropWhile
          jsWhitespace) := rfl
    have h1 : (((stripCounty x.data).dropWhile jsWhitespace).rdropWhile
        jsWhitespace).dropWhile jsWhitespace =
        ((stripCounty x.data).dropWhile jsWhitespace).rdropWhile jsWhitespace :=
      dropWhile_eq_self_of_prefix _ (List.rdropWhile_prefix _ _)
        (List.dropWhile_idempotent _ _)
    have h2 : (((stripCounty x.data).dropWhile jsWhitespace).rdropWhile
        jsWhitespace).rdropWhile jsWhitespace =
        ((stripCounty x.data).dropWhile jsWhitespace).rdropWhile jsWhitespace :=
      List.rdropWhile_idempotent _ _
    show String.mk (lowerList (jsTrimList (stripCounty (normalizeCounty x).data))) =
      normalizeCounty x
    rw [hstrip, hw, jsTrimList, dropWhile_lowerList, h1, rdropWhile_lowerList, h2,
      lowerList_idem]
    rfl
  · decide

/-- Witness for the amended claim C2 at the concrete county string of the
sample data. -/
theorem C2_witness :
    canStripCounty (normalizeCounty "Erie County").data = false ∧
    (normalizeCounty (normalizeCounty "Erie County") =
        normalizeCounty "Erie County" ∧
      normalizeCounty "Erie County" = normalizeCounty "erie") :=
  ⟨by decide, C2_normalizeCounty_conditional_idem "Erie County" (by decide)⟩

/-! ### Locations and the Programs page filter (filteredLocations) -/

/-- Organization fields selected by the Programs page query. -/
structure OrgInfo where
  name : String
  services : Option (List String)
deriving DecidableEq

/-- Location record as fetched by the Programs page, with the parent
organization nested under organizations. -/
structure Location where
  id : String
  organization_id : String
  locationName : Option String
  address : String
  city : String
  county : String
  schedule : Option String
  accessibility_features : Option (List String)
  organizations : OrgInfo
deriving DecidableEq

/-- Case-insensitive substring test, modelling
hay.toLowerCase().includes(needle.toLowerCase()). -/
def containsCI (hay needle : String) : Bool :=
  decide (lowerList needle.data <:+: lowerList hay.data)

/-- Text predicate of filteredLocations: the empty query matches, else the
query must occur case-insensitively in the organization name, the city,
the county, or some service label; a missing services array contributes
false. -/
def matchesSearch (searchQuery : String) (loc : Location) : Bool :=
  searchQuery == "" ||
  containsCI loc.organizations.name searchQuery ||
  containsCI loc.city searchQuery ||
  containsCI loc.county searchQuery ||
  (match loc.organizations.services with
   | some services => services.any fun service => containsCI service searchQuery
   | none => false)

/-- County predicate of filteredLocations: the All Counties sentinel always
matches, else the normalised county names must agree. -/
def matchesCountyFilter (countyFilter : String) (loc : Location) : Bool :=
  countyFilter == "All Counties" ||
    normalizeCounty loc.county == normalizeCounty countyFilter

/-- Model of the filteredLocations computation of the Programs page. -/
def filteredLocations (locations : List Location) (searchQuery countyFilter : String) :
    List Location :=
  locations.filter fun loc =>
    matchesSearch searchQuery loc && matchesCountyFilter countyFilter loc

/-- Text predicate written from the claim's words, for comparison with the
source predicate: organization name, city, county, or some service label
contains the query case-insensitively; the empty query matches everything. -/
def claimTextMatch (q : String) (loc : Location) : Prop :=
  q = "" ∨ containsCI loc.organizations.name q = true ∨
  containsCI loc.city q = true ∨ containsCI loc.county q = true ∨
  ∃ s ∈ loc.organizations.services.getD [], containsCI s q = true

instance (q : String) (loc : Location) : Decidable (claimTextMatch q loc) := by
  unfold claimTextMatch
  infer_instance

theorem matchesSearch_iff (q : String) (loc : Location) :
    matchesSearch q loc = true ↔ claimTextMatch q loc := by
  unfold matchesSearch claimTextMatch
  cases hs : loc.organizations.services with
  | none =>
    simp [hs]
    tauto
  | some services =>
    simp [hs, List.any_eq_true]
    tauto

/-- Claim C1: with the All Counties sentinel, filteredLocations is exactly
the filter of the input list by the claim's text predicate, in input
order, and the empty query returns the list unchanged (records with a
missing services array included). -/
theorem C1_filteredLocations_allCounties (L : List Location) (q : String) :
    filteredLocations L q "All Counties" =
      L.filter (fun loc => decide (claimTextMatch q loc)) ∧
    filteredLocations L "" "All Counties" = L := by
  constructor
  · apply List.filter_congr
    intro loc _
    have hc : matchesCountyFilter "All Counties" loc = true := by
      simp [matchesCountyFilter]
    rw [hc, Bool.and_true, Bool.eq_iff_iff, decide_eq_true_eq]
    exact matchesSearch_iff q loc
  · have hall : ∀ loc : Location,
        (matchesSearch "" loc && matchesCountyFilter "All Counties" loc) = true := by
      intro loc
      simp [matchesSearch, matchesCountyFilter]
    unfold filteredLocations
    rw [List.filter_congr (fun loc _ => hall loc)]
    simp

/-! ### Reviews and the location_ratings aggregate view -/

/-- Structured sub-ratings stored in the program_ratings JSON column and
kept in the ReviewForm component state, initialised to all zeroes. -/
structure ProgramRatings where
  dignity : Nat
  activities : Nat
  safety : Nat
deriving DecidableEq

/-- Review row with the columns the client reads and writes.  Identifiers
are modelled as natural numbers. -/
structure ReviewRow where
  id : Nat
  user_id : Nat
  location_id : Nat
  organization_id : Nat
  rating : Nat
  title : String
  review_text : String
  program_ratings : ProgramRatings
  verified_visit : Bool
deriving DecidableEq

/-- Ratings of the reviews of one location, in row order. -/
def ratingsFor (reviews : List ReviewRow) (loc : Nat) : List Nat :=
  (reviews.filter fun r => r.location_id == loc).map fun r => r.rating

/-- Rounding of the Postgres numeric ROUND(x, 1) call used by the
location_ratings view: half away from zero at one decimal place. -/
def pgRound1 (q : ℚ) : ℚ :=
  if q < 0 then -((Int.floor (-q * 10 + 1 / 2) : ℚ) / 10)
  else (Int.floor (q * 10 + 1 / 2) : ℚ) / 10

/-- Row of the location_ratings view. -/
structure LocationRating where
  location_id : Nat
  review_count : Nat
  average_rating : ℚ
deriving DecidableEq

/-- Arithmetic mean of a list of ratings, as a rational number. -/
def meanRating (rs : List Nat) : ℚ :=
  (rs.map fun n : Nat => (n : ℚ)).sum / rs.length

/-- Model of the location_ratings view: the GROUP BY produces one row per
location that occurs in the reviews table, carrying COUNT(*) and the
rounded AVG(rating). -/
def locationRatings (reviews : List ReviewRow) : List LocationRating :=
  ((reviews.map fun r => r.location_id).dedup).map fun loc =>
    { location_id := loc
      review_count := (ratingsFor reviews loc).length
      average_rating := pgRound1 (meanRating (ratingsFor reviews loc)) }

/-- Round-half-up to one decimal place, written from the claim's words for
comparison with the rounding performed by the code. -/
def roundHalfUp1 (q : ℚ) : ℚ := ((Int.floor (q * 10 + 1 / 2)) : ℚ) / 10

/-- Three sample reviews of location 7 rated 4, 5 and 3, the instance named
by the claim. -/
def demoReviews453 : List ReviewRow :=
  [⟨1, 10, 7, 20, 4, "a", "ta", ⟨0, 0, 0⟩, true⟩,
   ⟨2, 11, 7, 20, 5, "b", "tb", ⟨0, 0, 0⟩, true⟩,
   ⟨3, 12, 7, 20, 3, "c", "tc", ⟨0, 0, 0⟩, true⟩]

theorem pgRound1_eq_roundHalfUp1 {q : ℚ} (h : 0 ≤ q) :
    pgRound1 q = roundHalfUp1 q := by
  simp [pgRound1, roundHalfUp1, not_lt.mpr h]

theorem meanRating_nonneg (rs : List Nat) : 0 ≤ meanRating rs := by
  unfold meanRating
  apply div_nonneg
  · apply List.sum_nonneg
    intro x hx
    rw [List.mem_map] at hx
    obtain ⟨m, hm, hfx⟩ := hx
    rw [← hfx]
    exact Nat.cast_nonneg m
  · exact Nat.cast_nonneg _

theorem locationRatings_find? (reviews : List ReviewRow) (loc : Nat) :
    (locationRatings reviews).find? (fun e => e.location_id == loc) =
      Option.map
        (fun loc2 => ({ location_id := loc2
                        review_count := (ratingsFor reviews loc2).length
                        average_rating :=
                          pgRound1 (meanRating (ratingsFor reviews loc2)) } :
          LocationRating))
        ((reviews.map fun r => r.location_id).dedup.find? fun l => l == loc) := by
  unfold locationRatings
  rw [List.find?_map]
  rfl

theorem ratingsFor_eq_nil_iff (reviews : List ReviewRow) (loc : Nat) :
    ratingsFor reviews loc = [] ↔ (loc ∉ reviews.map fun r => r.location_id) := by
  unfold ratingsFor
  rw [List.map_eq_nil_iff, List.filter_eq_nil_iff]
  simp [List.mem_map]

/-- Claim C3: a location has an entry in the location_ratings view exactly
when it has at least one review (absence, not a zero entry, for zero
reviews); the entry's count is the number of review rows and its average
is the arithmetic mean of the ratings rounded to one decimal place,
half-up; in particular ratings 4, 5, 3 yield average 4 and count 3. -/
theorem C3_locationRatings_spec (reviews : List ReviewRow) (loc : Nat) :
    ((locationRatings reviews).find? (fun e => e.location_id == loc) = none ↔
      ratingsFor reviews loc = []) ∧
    (∀ e : LocationRating,
      (locationRatings reviews).find? (fun e2 => e2.location_id == loc) = some e →
      e.review_count = (ratingsFor reviews loc).length ∧
      e.average_rating = roundHalfUp1 (meanRating (ratingsFor reviews loc))) ∧
    (locationRatings demoReviews453).find? (fun e => e.location_id == 7) =
      some { location_id := 7, review_count := 3, average_rating := 4 } ∧
    (locationRatings demoReviews453).find? (fun e => e.location_id == 8) = none := by
  refine ⟨?_, ?_, ?_, ?_⟩
  · rw [locationRatings_find?, Option.map_eq_none', List.find?_eq_none,
      ratingsFor_eq_nil_iff]
    constructor
    · intro h hmem
      have := h loc (List.mem_dedup.mpr hmem)
      simp at this
    · intro h x hx hbeq
      have hx2 : x = loc := by simpa using hbeq
      exact h (hx2 ▸ List.mem_dedup.mp hx)
  · intro e hfind
    rw [locationRatings_find?] at hfind
    cases hcase : (reviews.map fun r => r.location_id).dedup.find? (fun l => l == loc) with
    | none =>
      rw [hcase] at hfind
      exact Option.noConfusion hfind
    | some a =>
      rw [hcase] at hfind
      have ha : a = loc := by
        have := List.find?_some hcase
        simpa using this
      subst ha
      have he := (Option.some.inj hfind).symm
      subst he
      exact ⟨rfl, pgRound1_eq_roundHalfUp1 (meanRating_nonneg _)⟩
  · have hstep : (locationRatings demoReviews453).find? (fun e => e.location_id == 7) =
        some { location_id := 7, review_count := 3,
               average_rating := pgRound1 (meanRating (ratingsFor demoReviews453 7)) } := by
      rfl
    rw [hstep]
    congr 1
    have hr : ratingsFor demoReviews453 7 = [4, 5, 3] := by rfl
    rw [hr]
    have hm : meanRating [4, 5, 3] = 4 := by
      norm_num [meanRating]
    rw [hm]
    norm_num [pgRound1]
  · rfl

/-- Witness for claim C3 at the three sample reviews rated 4, 5 and 3. -/
theorem C3_witness :
    ({ location_id := 7, review_count := 3, average_rating := 4 } :
        LocationRating).review_count = (ratingsFor demoReviews453 7).length ∧
    ({ location_id := 7, review_count := 3, average_rating := 4 } :
        LocationRating).average_rating =
      roundHalfUp1 (meanRating (ratingsFor demoReviews453 7)) :=
  (C3_locationRatings_spec demoReviews453 7).2.1 _
    (C3_locationRatings_spec demoReviews453 7).2.2.1

/-! ### ReviewForm submission (ReviewForm.tsx handleSubmit)

The handler validates the draft (star rating chosen, title and narrative
non-blank), then either updates the existing review row by id or inserts a
new row with verified_visit set to true; on success of a new submission the
rating, title and narrative fields of the draft are reset and in both
success paths the onReviewSubmitted refresh hook runs; on a backend error
the draft is left untouched and a generic failure notice is raised. -/

/-- Component state of ReviewForm: star rating, title, narrative and the
optional structured program ratings. -/
structure ReviewFormState where
  rating : Nat
  title : String
  reviewText : String
  programRatings : ProgramRatings
deriving DecidableEq

/-- Feedback surfaced through the toast calls of handleSubmit. -/
inductive SubmitFeedback where
  | ratingRequired
  | fieldsRequired
  | updated
  | submitted
  | storeError
deriving DecidableEq

/-- Result of one run of handleSubmit: the component draft state, the
reviews table, the feedback raised, and whether the onReviewSubmitted
refresh hook was invoked. -/
structure SubmitResult where
  form : ReviewFormState
  db : List ReviewRow
  feedback : SubmitFeedback
  refreshInvoked : Bool
deriving DecidableEq

/-- Update applied by the edit branch of handleSubmit to the row whose id
matches the existing review: rating, trimmed title, trimmed narrative and
program_ratings are written; every other column is untouched. -/
def applyEdit (s : ReviewFormState) (eid : Nat) (r : ReviewRow) : ReviewRow :=
  if r.id == eid then
    { r with rating := s.rating, title := jsTrimString s.title,
             review_text := jsTrimString s.reviewText,
             program_ratings := s.programRatings }
  else r

/-- Row inserted by the new-review branch of handleSubmit. -/
def insertedRow (s : ReviewFormState) (userId locationId organizationId newId : Nat) :
    ReviewRow :=
  { id := newId, user_id := userId, location_id := locationId
    organization_id := organizationId, rating := s.rating
    title := jsTrimString s.title, review_text := jsTrimString s.reviewText
    program_ratings := s.programRatings, verified_visit := true }

/-- Model of the ReviewForm handleSubmit run: validation first, then one
update or one insert against the reviews table; backendOk models whether
the awaited remote call succeeds or throws. -/
def handleSubmitReviewForm (s : ReviewFormState) (existingReview : Option Nat)
    (db : List ReviewRow) (userId locationId organizationId newId : Nat)
    (backendOk : Bool) : SubmitResult :=
  if s.rating = 0 then ⟨s, db, .ratingRequired, false⟩
  else if jsTrimString s.title = "" ∨ jsTrimString s.reviewText = "" then
    ⟨s, db, .fieldsRequired, false⟩
  else
    match existingReview with
    | some eid =>
      if backendOk then ⟨s, db.map (applyEdit s eid), .updated, true⟩
      else ⟨s, db, .storeError, false⟩
    | none =>
      if backendOk then
        ⟨{ rating := 0, title := "", reviewText := "",
           programRatings := s.programRatings },
         db ++ [insertedRow s userId locationId organizationId newId],
         .submitted, true⟩
      else ⟨s, db, .storeError, false⟩

/-- Initial draft state of ReviewForm for a new review: no stars, empty
title and narrative, and all-zero program ratings. -/
def initialReviewFormState : ReviewFormState :=
  { rating := 0, title := "", reviewText := "", programRatings := ⟨0, 0, 0⟩ }

theorem length_filter_map_eq {α β : Type} (f : α → β) (p : β → Bool) (q : α → Bool)
    (h : ∀ x, p (f x) = q x) (l : List α) :
    ((l.map f).filter p).length = (l.filter q).length := by
  induction l with
  | nil => rfl
  | cons a t ih =>
    rw [List.map_cons, List.filter_cons, List.filter_cons, h a]
    cases q a <;> simp [ih]

theorem applyEdit_location_id (s : ReviewFormState) (eid : Nat) (x : ReviewRow) :
    (applyEdit s eid x).location_id = x.location_id := by
  unfold applyEdit
  split <;> rfl

/-- Claim C4: when the (viewer, location) pair already has a review row r,
submitting a valid draft replaces exactly that row in place with the
draft's rating, trimmed title, trimmed narrative and structured
sub-ratings; no row is inserted, every other row is untouched, and the
review count of the location does not increase. -/
theorem C4_review_upsert_in_place (s : ReviewFormState) (db : List ReviewRow)
    (r : ReviewRow) (u loc org newId : Nat)
    (hmem : r ∈ db) (hu : r.user_id = u) (hl : r.location_id = loc)
    (hv1 : s.rating ≠ 0) (hv2 : jsTrimString s.title ≠ "")
    (hv3 : jsTrimString s.reviewText ≠ "") :
    (handleSubmitReviewForm s (some r.id) db u loc org newId true).db =
      db.map (applyEdit s r.id) ∧
    (handleSubmitReviewForm s (some r.id) db u loc org newId true).db.length =
      db.length ∧
    (∀ x : ReviewRow, x.id ≠ r.id → applyEdit s r.id x = x) ∧
    applyEdit s r.id r =
      { r with rating := s.rating, title := jsTrimString s.title,
               review_text := jsTrimString s.reviewText,
               program_ratings := s.programRatings } ∧
    ((handleSubmitReviewForm s (some r.id) db u loc org newId true).db.filter
        fun x => x.location_id == loc).length =
      (db.filter fun x => x.location_id == loc).length := by
  have hres : handleSubmitReviewForm s (some r.id) db u loc org newId true =
      ⟨s, db.map (applyEdit s r.id), .updated, true⟩ := by
    simp [handleSubmitReviewForm, hv1, hv2, hv3]
  refine ⟨by rw [hres], by rw [hres]; simp, ?_, ?_, ?_⟩
  · intro x hx
    have hbeq : (x.id == r.id) = false := by
      simp [hx]
    simp [applyEdit, hbeq]
  · simp [applyEdit]
  · rw [hres]
    exact length_filter_map_eq _ _ _
      (fun x => by rw [applyEdit_location_id]) db

/-- Concrete draft used by the witnesses of the submission claims. -/
def witnessDraft : ReviewFormState :=
  { rating := 4, title := "Great staff", reviewText := "Kind and attentive.",
    programRatings := ⟨5, 4, 3⟩ }

/-- Concrete pre-existing review row used by the witnesses. -/
def witnessRow : ReviewRow :=
  ⟨5, 9, 8, 7, 2, "old title", "old text", ⟨0, 0, 0⟩, true⟩

/-- Witness for claim C4 at a one-row reviews table. -/
theorem C4_witness :
    (handleSubmitReviewForm witnessDraft (some witnessRow.id) [witnessRow]
        9 8 7 99 true).db = [witnessRow].map (applyEdit witnessDraft witnessRow.id) ∧
    (handleSubmitReviewForm witnessDraft (some witnessRow.id) [witnessRow]
        9 8 7 99 true).db.length = [witnessRow].length ∧
    (∀ x : ReviewRow, x.id ≠ witnessRow.id →
      applyEdit witnessDraft witnessRow.id x = x) ∧
    applyEdit witnessDraft witnessRow.id witnessRow =
      { witnessRow with rating := witnessDraft.rating,
                        title := jsTrimString witnessDraft.title,
                        review_text := jsTrimString witnessDraft.reviewText,
                        program_ratings := witnessDraft.programRatings } ∧
    ((handleSubmitReviewForm witnessDraft (some witnessRow.id) [witnessRow]
        9 8 7 99 true).db.filter fun x => x.location_id == 8).length =
      ([witnessRow].filter fun x => x.location_id == 8).length :=
  C4_review_upsert_in_place witnessDraft [witnessRow] witnessRow 9 8 7 99
    (by decide) (by decide) (by decide) (by decide) (by decide) (by decide)

/-! ### DetailedReviewForm draft variants and submission validation -/

/-- Draft of the collapsible DetailedReviewForm variant: multi-select
review types, per-category star ratings, narrative, actions, tags and a
visibility flag (true means public). -/
structure DraftV1 where
  selectedTypes : List String
  ratings : List (String × Nat)
  reviewText : String
  selectedActions : List String
  selectedContextTags : List String
  visibilityPublic : Bool
deriving DecidableEq

/-- Draft of the accordion DetailedReviewForm variant: overall star rating,
one selected focus type, three slider scores, narrative, actions, tags and
visibility. -/
structure DraftV2 where
  overallRating : Nat
  selectedType : String
  qualityScores : ProgramRatings
  reviewText : String
  selectedActions : List String
  selectedContextTags : List String
  visibilityPublic : Bool
deriving DecidableEq

/-- Outcome of one submit of a DetailedReviewForm variant: a validation
rejection carrying the toast title and the untouched draft, success of the
awaited submission carrying the reset draft, or a submission failure
carrying the untouched draft. -/
inductive WizardOutcome (σ : Type) where
  | rejected (reason : String) (draft : σ)
  | succeeded (draft : σ)
  | failed (draft : σ)
deriving DecidableEq

/-- Reset state of the collapsible variant after a successful submission. -/
def clearedV1 : DraftV1 := ⟨[], [], "", [], [], true⟩

/-- Model of the collapsible variant handleSubmit: reject when no review
type is selected, then when the trimmed narrative is empty; otherwise the
submission runs and on success every field is reset. -/
def submitV1 (d : DraftV1) (ok : Bool) : WizardOutcome DraftV1 :=
  if d.selectedTypes.isEmpty then .rejected "Review type required" d
  else if jsTrimString d.reviewText = "" then .rejected "Description required" d
  else if ok then .succeeded clearedV1 else .failed d

/-- Reset state of the accordion variant after a successful submission; the
slider scores return to their initial value three. -/
def clearedV2 : DraftV2 := ⟨0, "", ⟨3, 3, 3⟩, "", [], [], true⟩

/-- Model of the accordion variant handleSubmit: reject when no overall
rating was given, then when no focus type is selected, then when the
trimmed narrative is empty; otherwise the submission runs. -/
def submitV2 (d : DraftV2) (ok : Bool) : WizardOutcome DraftV2 :=
  if d.overallRating = 0 then .rejected "Overall rating required" d
  else if d.selectedType = "" then .rejected "Focus area required" d
  else if jsTrimString d.reviewText = "" then .rejected "Description required" d
  else if ok then .succeeded clearedV2 else .failed d

/-- Claim C5: a draft with no review type selected is rejected with the
specific missing-field toast before the submission branch runs, whatever
the narrative holds; and a validation rejection never reaches the
submission branch in either variant. -/
theorem C5_validation_before_write :
    (∀ (d : DraftV1) (ok : Bool), d.selectedTypes = [] →
      submitV1 d ok = .rejected "Review type required" d) ∧
    (∀ (d : DraftV2) (ok : Bool), d.selectedType = "" →
      ∃ reason, submitV2 d ok = .rejected reason d) ∧
    (∀ (d : DraftV1) (ok : Bool) (reason : String) (e : DraftV1),
      submitV1 d ok = .rejected reason d → submitV1 d ok ≠ .succeeded e) ∧
    (∀ (d : DraftV2) (ok : Bool) (reason : String) (e : DraftV2),
      submitV2 d ok = .rejected reason d → submitV2 d ok ≠ .succeeded e) := by
  refine ⟨?_, ?_, ?_, ?_⟩
  · intro d ok h
    simp [submitV1, h]
  · intro d ok h
    by_cases h0 : d.overallRating = 0
    · exact ⟨"Overall rating required", by simp [submitV2, h0]⟩
    · exact ⟨"Focus area required", by simp [submitV2, h0, h]⟩
  · intro d ok reason e hrej
    rw [hrej]
    simp
  · intro d ok reason e hrej
    rw [hrej]
    simp

/-- Witness for claim C5 at concrete drafts with no type selected. -/
theorem C5_witness :
    submitV1 ⟨[], [], "some narrative", [], [], true⟩ true =
      .rejected "Review type required" ⟨[], [], "some narrative", [], [], true⟩ ∧
    ∃ reason, submitV2 ⟨5, "", ⟨3, 3, 3⟩, "text", [], [], true⟩ true =
      .rejected reason ⟨5, "", ⟨3, 3, 3⟩, "text", [], [], true⟩ :=
  ⟨C5_validation_before_write.1 _ true rfl,
   C5_validation_before_write.2.1 _ true rfl⟩

/-- Claim C6: when the backend write fails, ReviewForm raises the generic
failure notice, the reviews table is unchanged, the refresh hook does not
run, and every draft field (rating, title, narrative, sub-ratings) keeps
its value; the accordion variant likewise preserves its type, tags and
visibility fields on a failed submission. -/
theorem C6_backend_failure_preserves_draft (s : ReviewFormState)
    (existing : Option Nat) (db : List ReviewRow) (u loc org newId : Nat)
    (hv1 : s.rating ≠ 0) (hv2 : jsTrimString s.title ≠ "")
    (hv3 : jsTrimString s.reviewText ≠ "") :
    handleSubmitReviewForm s existing db u loc org newId false =
      ⟨s, db, .storeError, false⟩ ∧
    (∀ d : DraftV2, d.overallRating ≠ 0 → d.selectedType ≠ "" →
      jsTrimString d.reviewText ≠ "" → submitV2 d false = .failed d) := by
  constructor
  · cases existing <;> simp [handleSubmitReviewForm, hv1, hv2, hv3]
  · intro d h1 h2 h3
    simp [submitV2, h1, h2, h3]

/-- Witness for claim C6 at a concrete draft and a failing backend. -/
theorem C6_witness :
    handleSubmitReviewForm witnessDraft none [witnessRow] 9 8 7 99 false =
      ⟨witnessDraft, [witnessRow], .storeError, false⟩ ∧
    submitV2 ⟨5, "general", ⟨4, 4, 4⟩, "text", ["Other"], ["Safety"], false⟩ false =
      .failed ⟨5, "general", ⟨4, 4, 4⟩, "text", ["Other"], ["Safety"], false⟩ :=
  ⟨(C6_backend_failure_preserves_draft witnessDraft none [witnessRow] 9 8 7 99
      (by decide) (by decide) (by decide)).1,
   (C6_backend_failure_preserves_draft witnessDraft none [witnessRow] 9 8 7 99
      (by decide) (by decide) (by decide)).2 _
      (by decide) (by decide) (by decide)⟩

/-- Claim C7 fails on ReviewForm: after a successful new submission the
rating, title and narrative are reset but the structured program ratings
keep their submitted values, so the draft does not return to the initial
all-empty state. -/
theorem C7_counterexample :
    (handleSubmitReviewForm witnessDraft none [] 9 8 7 99 true).feedback =
      .submitted ∧
    (handleSubmitReviewForm witnessDraft none [] 9 8 7 99 true).refreshInvoked =
      true ∧
    (handleSubmitReviewForm witnessDraft none [] 9 8 7 99 true).form ≠
      initialReviewFormState := by
  decide

/-- Claim C7 (amended): a successful new submission clears the rating,
title and narrative of the draft and invokes the refresh hook, but the
structured sub-ratings keep their pre-submission values instead of being
reset. -/
theorem C7_success_resets_except_subratings (s : ReviewFormState)
    (db : List ReviewRow) (u loc org newId : Nat)
    (hv1 : s.rating ≠ 0) (hv2 : jsTrimString s.title ≠ "")
    (hv3 : jsTrimString s.reviewText ≠ "") :
    (handleSubmitReviewForm s none db u loc org newId true).form.rating = 0 ∧
    (handleSubmitReviewForm s none db u loc org newId true).form.title = "" ∧
    (handleSubmitReviewForm s none db u loc org newId true).form.reviewText = "" ∧
    (handleSubmitReviewForm s none db u loc org newId true).form.programRatings =
      s.programRatings ∧
    (handleSubmitReviewForm s none db u loc org newId true).refreshInvoked = true ∧
    (handleSubmitReviewForm s none db u loc org newId true).feedback =
      .submitted := by
  simp [handleSubmitReviewForm, hv1, hv2, hv3]

/-- Witness for the amended claim C7 at a concrete draft. -/
theorem C7_witness :
    (handleSubmitReviewForm witnessDraft none [] 9 8 7 99 true).form.rating = 0 ∧
    (handleSubmitReviewForm witnessDraft none [] 9 8 7 99 true).form.title = "" ∧
    (handleSubmitReviewForm witnessDraft none [] 9 8 7 99 true).form.reviewText =
      "" ∧
    (handleSubmitReviewForm witnessDraft none [] 9 8 7 99 true).form.programRatings
      = witnessDraft.programRatings ∧
    (handleSubmitReviewForm witnessDraft none [] 9 8 7 99 true).refreshInvoked =
      true ∧
    (handleSubmitReviewForm witnessDraft none [] 9 8 7 99 true).feedback =
      .submitted :=
  C7_success_resets_except_subratings witnessDraft [] 9 8 7 99
    (by decide) (by decide) (by decide)

/-- Claim C10: the new-review branch of handleSubmit appends a single row
whose verified_visit flag is true, for every valid draft (the form offers
no input for it), and the edit branch never writes the verified_visit
column. -/
theorem C10_verified_visit (s : ReviewFormState) (db : List ReviewRow)
    (u loc org newId eid : Nat) (r : ReviewRow)
    (hv1 : s.rating ≠ 0) (hv2 : jsTrimString s.title ≠ "")
    (hv3 : jsTrimString s.reviewText ≠ "") :
    (handleSubmitReviewForm s none db u loc org newId true).db =
      db ++ [insertedRow s u loc org newId] ∧
    (insertedRow s u loc org newId).verified_visit = true ∧
    (applyEdit s eid r).verified_visit = r.verified_visit := by
  refine ⟨?_, rfl, ?_⟩
  · simp [handleSubmitReviewForm, hv1, hv2, hv3]
  · unfold applyEdit
    split <;> rfl

/-- Witness for claim C10 at a concrete draft and row. -/
theorem C10_witness :
    (handleSubmitReviewForm witnessDraft none [] 9 8 7 99 true).db =
      [] ++ [insertedRow witnessDraft 9 8 7 99] ∧
    (insertedRow witnessDraft 9 8 7 99).verified_visit = true ∧
    (applyEdit witnessDraft 5 witnessRow).verified_visit =
      witnessRow.verified_visit :=
  C10_verified_visit witnessDraft [] 9 8 7 99 5 witnessRow
    (by decide) (by decide) (by decide)

/-! ### Favorites: toggle and the per-pair uniqueness invariant -/

/-- Favorite row with the columns the toggle logic touches. -/
structure FavoriteRow where
  id : Nat
  user_id : Nat
  location_id : Nat
deriving DecidableEq

/-- Lookup backing the favorite state of the LocationDetail page: the
first favorite row of the (viewer, location) pair. -/
def favoriteFor (db : List FavoriteRow) (u loc : Nat) : Option FavoriteRow :=
  db.find? fun f => f.user_id == u && f.location_id == loc

/-- Membership test of the pair, as rendered by the heart button. -/
def isFavorited (db : List FavoriteRow) (u loc : Nat) : Bool :=
  (favoriteFor db u loc).isSome

/-- Number of favorite rows of a pair. -/
def pairCount (db : List FavoriteRow) (u loc : Nat) : Nat :=
  (db.filter fun f => f.user_id == u && f.location_id == loc).length

/-- Model of handleToggleFavorite: when the page holds a favorite for the
pair, delete the rows carrying its id; otherwise insert a fresh row for
the pair. -/
def toggleFavorite (db : List FavoriteRow) (u loc newId : Nat) : List FavoriteRow :=
  match favoriteFor db u loc with
  | some fav => db.filter fun f => !(f.id == fav.id)
  | none => db ++ [⟨newId, u, loc⟩]

theorem eq_of_mem_of_length_le_one {α : Type} {l : List α} {a b : α}
    (h : l.length ≤ 1) (ha : a ∈ l) (hb : b ∈ l) : a = b := by
  cases l with
  | nil => cases ha
  | cons x t =>
    cases t with
    | nil =>
      rw [List.mem_singleton] at ha hb
      rw [ha, hb]
    | cons y t2 => simp at h

theorem pairCount_eq_zero_of_none {db : List FavoriteRow} {u loc : Nat}
    (h : favoriteFor db u loc = none) : pairCount db u loc = 0 := by
  unfold pairCount
  rw [List.filter_eq_nil_iff.mpr (List.find?_eq_none.mp h), List.length_nil]

theorem pairCount_append_single (db : List FavoriteRow) (row : FavoriteRow)
    (u2 loc2 : Nat) :
    pairCount (db ++ [row]) u2 loc2 =
      pairCount db u2 loc2 +
        (if (row.user_id == u2 && row.location_id == loc2) = true then 1 else 0) := by
  unfold pairCount
  rw [List.filter_append, List.length_append]
  congr 1
  by_cases h : (row.user_id == u2 && row.location_id == loc2) = true
  · simp [h]
  · simp [h]

theorem toggleFavorite_of_some {db : List FavoriteRow} {u loc : Nat}
    {g : FavoriteRow} (h : favoriteFor db u loc = some g) (i : Nat) :
    toggleFavorite db u loc i = db.filter fun f => !(f.id == g.id) := by
  unfold toggleFavorite
  rw [h]

theorem toggleFavorite_of_none {db : List FavoriteRow} {u loc : Nat}
    (h : favoriteFor db u loc = none) (i : Nat) :
    toggleFavorite db u loc i = db ++ [⟨i, u, loc⟩] := by
  unfold toggleFavorite
  rw [h]

/-- Claim C8: toggling the favorite of a pair twice returns the membership
state to its original value, and one toggle preserves the invariant that
no pair has two favorite rows. -/
theorem C8_toggleFavorite_involutive (db : List FavoriteRow) (u loc id1 id2 : Nat)
    (hpc : pairCount db u loc ≤ 1)
    (hid1 : ∀ f ∈ db, f.id ≠ id1) :
    isFavorited (toggleFavorite (toggleFavorite db u loc id1) u loc id2) u loc =
      isFavorited db u loc ∧
    (∀ u2 loc2 : Nat, pairCount db u2 loc2 ≤ 1 →
      pairCount (toggleFavorite db u loc id1) u2 loc2 ≤ 1) := by
  cases hfav : favoriteFor db u loc with
  | some fav =>
    have hmemfav : fav ∈ db := List.mem_of_find?_eq_some
      (show db.find? (fun f => f.user_id == u && f.location_id == loc) = some fav
        from hfav)
    have hpredfav : (fav.user_id == u && fav.location_id == loc) = true := by
      have hp := List.find?_some
        (show db.find? (fun f => f.user_id == u && f.location_id == loc) = some fav
          from hfav)
      simpa using hp
    have hnone : favoriteFor (db.filter fun f => !(f.id == fav.id)) u loc = none := by
      apply List.find?_eq_none.mpr
      intro x hx hpx
      obtain ⟨hxdb, hxkeep⟩ := List.mem_filter.mp hx
      have hxfav : x = fav := by
        apply eq_of_mem_of_length_le_one hpc
        · exact List.mem_filter.mpr ⟨hxdb, hpx⟩
        · exact List.mem_filter.mpr ⟨hmemfav, hpredfav⟩
      rw [hxfav] at hxkeep
      simp at hxkeep
    constructor
    · rw [toggleFavorite_of_some hfav, toggleFavorite_of_none hnone]
      unfold isFavorited favoriteFor
      unfold favoriteFor at hfav
      rw [List.find?_append]
      unfold favoriteFor at hnone
      rw [hnone, hfav]
      simp
    · intro u2 loc2 h2
      rw [toggleFavorite_of_some hfav]
      unfold pairCount
      calc (((db.filter fun f => !(f.id == fav.id)).filter
              fun f => f.user_id == u2 && f.location_id == loc2)).length
          ≤ ((db.filter fun f => f.user_id == u2 && f.location_id == loc2)).length :=
            List.Sublist.length_le (List.Sublist.filter _ (List.filter_sublist db))
        _ ≤ 1 := h2
  | none =>
    have hfound : favoriteFor (db ++ [⟨id1, u, loc⟩]) u loc =
        some ⟨id1, u, loc⟩ := by
      unfold favoriteFor
      unfold favoriteFor at hfav
      rw [List.find?_append, hfav]
      simp
    constructor
    · rw [toggleFavorite_of_none hfav, toggleFavorite_of_some hfound,
        List.filter_append]
      have h1 : db.filter (fun f => !(f.id == (⟨id1, u, loc⟩ : FavoriteRow).id)) =
          db :=
        List.filter_eq_self.mpr fun f hf => by simp [hid1 f hf]
      have h2 : ([(⟨id1, u, loc⟩ : FavoriteRow)].filter
          fun f => !(f.id == (⟨id1, u, loc⟩ : FavoriteRow).id)) = [] := by
        simp
      rw [h1, h2, List.append_nil]
    · intro u2 loc2 h2
      rw [toggleFavorite_of_none hfav, pairCount_append_single]
      by_cases hmatch : ((⟨id1, u, loc⟩ : FavoriteRow).user_id == u2 &&
          (⟨id1, u, loc⟩ : FavoriteRow).location_id == loc2) = true
      · rw [if_pos hmatch]
        simp only [Bool.and_eq_true, beq_iff_eq] at hmatch
        obtain ⟨hu2, hl3⟩ := hmatch
        subst hu2
        subst hl3
        rw [pairCount_eq_zero_of_none hfav]
      · rw [if_neg hmatch]
        simpa using h2

/-- Witness for claim C8 at a one-row favorites table: toggling twice for
a favorited pair and the invariant after one toggle. -/
theorem C8_witness :
    isFavorited (toggleFavorite (toggleFavorite [⟨1, 9, 8⟩] 9 8 50) 9 8 51) 9 8 =
      isFavorited [⟨1, 9, 8⟩] 9 8 ∧
    pairCount (toggleFavorite [⟨1, 9, 8⟩] 9 8 50) 9 8 ≤ 1 :=
  ⟨(C8_toggleFavorite_involutive [⟨1, 9, 8⟩] 9 8 50 51 (by decide)
      (by decide)).1,
   (C8_toggleFavorite_involutive [⟨1, 9, 8⟩] 9 8 50 51 (by decide)
      (by decide)).2 9 8 (by decide)⟩

/-! ### Favorite notes and visit tracking (handleSaveNotes) -/

/-- Favorite row with the columns the notes panel touches; dates are
modelled as natural day numbers. -/
structure FavoriteDetail where
  id : Nat
  notes : String
  visited : Bool
  visit_date : Option Nat
deriving DecidableEq

/-- Fields written by the single favorites update statement of
handleSaveNotes: notes, visited and the derived visit_date together. -/
def saveVisitRow (notes : String) (visited : Bool) (today : Nat)
    (f : FavoriteDetail) : FavoriteDetail :=
  { f with notes := notes, visited := visited,
           visit_date := if visited then some today else none }

/-- Model of handleSaveNotes: one update statement writing notes, visited
and visit_date on the rows whose id matches the page's favorite. -/
def saveVisitState (db : List FavoriteDetail) (favId : Nat) (notes : String)
    (visited : Bool) (today : Nat) : List FavoriteDetail :=
  db.map fun f => if f.id == favId then saveVisitRow notes visited today f else f

/-- Visit date dictated by the claim's words: set to the current date
exactly when visited transitions to true, cleared otherwise. -/
def claimVisitDate (oldVisited visited : Bool) (today : Nat) : Option Nat :=
  if oldVisited = false ∧ visited = true then some today else none

/-- Claim C9 fails on the code: for a favorite already marked visited,
saving with visited still true rewrites visit_date to the current date,
although no transition to true happened and the claim dictates clearing
it in that case. -/
theorem C9_counterexample :
    saveVisitState [⟨1, "", true, some 5⟩] 1 "note" true 7 =
      [⟨1, "note", true, some 7⟩] ∧
    claimVisitDate true true 7 = none ∧
    (some 7 : Option Nat) ≠ none := by
  refine ⟨?_, rfl, by decide⟩
  rfl

/-- Claim C9 (amended): saveVisitState updates notes, visited and
visit_date of the matching favorite atomically in one write; visit_date is
set to the current date whenever the saved visited flag is true, even when
it was already true, and cleared to null whenever the flag is false; it is
derived from the visited flag and never independently editable; every
other row is untouched. -/
theorem C9_saveVisitState_atomic (db : List FavoriteDetail) (favId : Nat)
    (notes : String) (visited : Bool) (today : Nat) :
    saveVisitState db favId notes visited today =
      db.map (fun f => if f.id == favId then saveVisitRow notes visited today f
        else f) ∧
    (saveVisitState db favId notes visited today).length = db.length ∧
    (∀ f : FavoriteDetail, f.id = favId →
      (saveVisitRow notes visited today f).notes = notes ∧
      (saveVisitRow notes visited today f).visited = visited ∧
      (saveVisitRow notes visited today f).visit_date =
        (if visited then some today else none)) ∧
    (∀ f : FavoriteDetail, f.id ≠ favId →
      (if f.id == favId then saveVisitRow notes visited today f else f) = f) := by
  refine ⟨rfl, by simp [saveVisitState], ?_, ?_⟩
  · intro f hf
    exact ⟨rfl, rfl, rfl⟩
  · intro f hf
    simp [hf]

/-- Witness for the amended claim C9 at a concrete favorites table. -/
theorem C9_witness :
    saveVisitState [⟨1, "", true, some 5⟩] 1 "note" true 7 =
      [⟨1, "", true, some 5⟩].map (fun f => if f.id == 1 then
        saveVisitRow "note" true 7 f else f) ∧
    (saveVisitRow "note" true 7 ⟨1, "", true, some 5⟩).notes = "note" ∧
    (saveVisitRow "note" true 7 ⟨1, "", true, some 5⟩).visited = true ∧
    (saveVisitRow "note" true 7 ⟨1, "", true, some 5⟩).visit_date =
      (if true then some 7 else none) ∧
    (if (⟨2, "x", false, none⟩ : FavoriteDetail).id == 1 then
        saveVisitRow "note" true 7 ⟨2, "x", false, none⟩
      else (⟨2, "x", false, none⟩ : FavoriteDetail)) = ⟨2, "x", false, none⟩ := by
  have h := C9_saveVisitState_atomic [⟨1, "", true, some 5⟩] 1 "note" true 7
  have h3 := h.2.2.1 ⟨1, "", true, some 5⟩ rfl
  exact ⟨h.1, h3.1, h3.2.1, h3.2.2, h.2.2.2 ⟨2, "x", false, none⟩ (by decide)⟩
